import Mathlib

/-!
Shallow embedding of the FastAPI calculator repository:
`app/operations/__init__.py` (the four arithmetic functions) and `main.py`
(the Pydantic request/response models, the validation exception handler and
the four POST routes).

Python numbers are embedded as an inductive with an `int` constructor over ℤ
(Python integers are arbitrary precision) and a `float` constructor whose
payload is a rational: the exact value held by the double.  IEEE-754 rounding
is idealized away (every arithmetic result is kept exactly); NaN and the two
infinities are outside the model, and the two IEEE zeros collapse to the
single rational 0 — consistent with Python's `==`, under which `0.0 == -0.0`
and `0.0 == 0` both hold, which is the comparison the code performs.
-/

namespace Calc

/-- A Python number: `int` (arbitrary-precision integer) or `float`
(double, idealized by the exact rational value it holds). -/
inductive PyNum : Type
  | int (n : ℤ)
  | float (q : ℚ)
  deriving DecidableEq, Repr

namespace PyNum

/-- The numeric value of a Python number, as used by Python's numeric `==`
(which compares `int` and `float` by value: `0 == 0.0` is `True`). -/
def toRat : PyNum → ℚ
  | int n => (n : ℚ)
  | float q => q

/-- Python unary minus on a number: keeps the type, negates the value. -/
def neg : PyNum → PyNum
  | int n => int (-n)
  | float q => float (-q)

/-- Whether the number is of Python type `float`. -/
def isFloat : PyNum → Bool
  | int _ => false
  | float _ => true

end PyNum

/-- A Python exception as the calculator can observe it: the `divide`
function raises `ValueError` (caught separately by the divide route), and the
route code has a fallback branch for any other exception class. -/
inductive PyExc : Type
  | valueError (msg : String)
  | otherExc (msg : String)
  deriving DecidableEq, Repr

open PyNum

/-- Function `add` of `app.operations`: Python `a + b`.  `int + int` stays `int`;
any `float` operand makes the result `float` with the exact sum. -/
def add : PyNum → PyNum → PyNum
  | .int m, .int n => .int (m + n)
  | a, b => .float (a.toRat + b.toRat)

/-- Function `subtract` of `app.operations`: Python `a - b`, with the same type rule
as addition. -/
def subtract : PyNum → PyNum → PyNum
  | .int m, .int n => .int (m - n)
  | a, b => .float (a.toRat - b.toRat)

/-- Function `multiply` of `app.operations`: Python `a * b`, with the same type rule
as addition. -/
def multiply : PyNum → PyNum → PyNum
  | .int m, .int n => .int (m * n)
  | a, b => .float (a.toRat * b.toRat)

/-- Function `divide` of `app.operations`: raises `ValueError "Cannot divide by zero!"`
when `b == 0` (Python numeric equality, so integer `0`, `0.0` and `-0.0`
alike), and otherwise returns Python true division `a / b`, which is always
a `float` even for two evenly dividing integers. -/
def divide (a b : PyNum) : Except PyExc PyNum :=
  if b.toRat = 0 then
    .error (.valueError "Cannot divide by zero!")
  else
    .ok (.float (a.toRat / b.toRat))

/-- An outcome of `divide` is a failure when it is an `Except.error`,
i.e. when the Python function raised. -/
def isFailure : Except PyExc PyNum → Bool
  | .error _ => true
  | .ok _ => false

deriving instance DecidableEq for Except

/-- A raw JSON value supplied for one of the request fields `a`, `b`,
classified by how Pydantic's `float` parsing treats it: a JSON number, a
string that parses as a number (Pydantic v2 lax mode coerces it), or any
other value (unparseable string, null, list, ...), carried by its textual
representation. -/
inductive RawValue : Type
  | num (p : PyNum)
  | numStr (q : ℚ)
  | other (repr : String)
  deriving DecidableEq, Repr

/-- A raw request body for one of the four operation endpoints: each of the
two fields may be present with some JSON value or missing. -/
structure RawRequest : Type where
  a : Option RawValue
  b : Option RawValue
  deriving DecidableEq, Repr

/-- Pydantic parsing of one field declared `float` in `OperationRequest`:
numbers and numeric strings are coerced to Python `float`; anything else
produces this field's validation message. -/
def coerceFloat : RawValue → Except String PyNum
  | .num p => .ok (.float p.toRat)
  | .numStr q => .ok (.float q)
  | .other _ =>
      .error "Input should be a valid number, unable to parse string as a number"

/-- Validator `validate_numbers` of `OperationRequest`: the `field_validator` on `a` and
`b` runs after coercion, so its `isinstance(value, (int, float))` test sees
a number; a non-number would be rejected with the model's message. -/
def validate_numbers (value : PyNum) : Except String PyNum :=
  match value with
  | .int n => .ok (.int n)
  | .float q => .ok (.float q)

/-- Validation of one field of `OperationRequest`: a missing field is
reported as required, otherwise the value is coerced to `float` and passed
through `validate_numbers`; an error is tagged with the field name, as in
the exception handler, which takes the last element of each error location as the field name. -/
def validateField (name : String) : Option RawValue → Except (String × String) PyNum
  | none => .error (name, "Field required")
  | some v =>
      match coerceFloat v with
      | .error msg => .error (name, msg)
      | .ok p =>
          match validate_numbers p with
          | .error msg => .error (name, msg)
          | .ok p => .ok p

/-- Pydantic validation of the whole `OperationRequest` body: both fields
are checked and all failing fields are reported together, `a` first. -/
def validateRequest (r : RawRequest) : Except (List (String × String)) (PyNum × PyNum) :=
  match validateField "a" r.a, validateField "b" r.b with
  | .ok x, .ok y => .ok (x, y)
  | .error e, .ok _ => .error [e]
  | .ok _, .error e => .error [e]
  | .error e₁, .error e₂ => .error [e₁, e₂]

/-- The message built by `validation_exception_handler`: one
`field: problem` entry per failing field, joined with `"; "`. -/
def formatValidationErrors (errs : List (String × String)) : String :=
  String.intercalate "; " (errs.map (fun e => e.1 ++ ": " ++ e.2))

/-- A response of the service layer, abstracting the HTTP wire format:
`success r` is status 200 with body `result = r`; `failure s msg` is
status `s` with body `error = msg`. -/
inductive Response : Type
  | success (result : PyNum)
  | failure (status : Nat) (error : String)
  deriving DecidableEq, Repr

/-- The `OperationResponse` Pydantic model: its single field is declared
`float`, so the wrapped result is coerced to a Python `float`. -/
def OperationResponse (result : PyNum) : PyNum := .float result.toRat

/-- The `try`/`except` structure of `divide_route` around the `divide`
call: a `ValueError` becomes a 400 with the exception's message, any other
exception becomes a 500 with a generic body, and a returned value is
wrapped in an `OperationResponse`. -/
def handleDivideOutcome : Except PyExc PyNum → Response
  | .ok r => .success (OperationResponse r)
  | .error (.valueError msg) => .failure 400 msg
  | .error (.otherExc _) => .failure 500 "Internal Server Error"

/-- Handler `validation_exception_handler` as a response: status 400 with the
semicolon-joined message. -/
def validationResponse (errs : List (String × String)) : Response :=
  .failure 400 (formatValidationErrors errs)

/-- Route `add_route`: validation errors are answered by the validation handler;
otherwise `add` is called on the validated operands.  (`add` never raises,
so the route's `except` clause is unreachable; diagnostic logging is out of
scope.) -/
def addRoute (req : RawRequest) : Response :=
  match validateRequest req with
  | .error errs => validationResponse errs
  | .ok (a, b) => .success (OperationResponse (add a b))

/-- Route `subtract_route`, with the same structure as `add_route`. -/
def subtractRoute (req : RawRequest) : Response :=
  match validateRequest req with
  | .error errs => validationResponse errs
  | .ok (a, b) => .success (OperationResponse (subtract a b))

/-- Route `multiply_route`, with the same structure as `add_route`. -/
def multiplyRoute (req : RawRequest) : Response :=
  match validateRequest req with
  | .error errs => validationResponse errs
  | .ok (a, b) => .success (OperationResponse (multiply a b))

/-- Route `divide_route`: validation errors are answered by the validation
handler; otherwise the outcome of `divide` goes through the route's
exception handling. -/
def divideRoute (req : RawRequest) : Response :=
  match validateRequest req with
  | .error errs => validationResponse errs
  | .ok (a, b) => handleDivideOutcome (divide a b)

/-- Which of the four operation endpoints a request is addressed to. -/
inductive OpKind : Type
  | addOp
  | subtractOp
  | multiplyOp
  | divideOp
  deriving DecidableEq, Repr

/-- A request to the service: an endpoint together with a raw body. -/
structure Request : Type where
  op : OpKind
  body : RawRequest
  deriving DecidableEq, Repr

/-- Dispatch of one request to its route. -/
def handleRequest (r : Request) : Response :=
  match r.op with
  | .addOp => addRoute r.body
  | .subtractOp => subtractRoute r.body
  | .multiplyOp => multiplyRoute r.body
  | .divideOp => divideRoute r.body

/-- The service processing a sequence of requests.  The application keeps
no state between requests (`main.py` has no mutable state outside the
out-of-scope loggers), so the sequence is handled pointwise. -/
def runServer (reqs : List Request) : List Response :=
  reqs.map handleRequest

end Calc

namespace Calc

/-- C5 helper: Python `add` is commutative on the nose (both the value and
the `int`/`float` type agree). -/
theorem add_comm' (a b : PyNum) : add a b = add b a := by
  cases a <;> cases b <;> simp [add, PyNum.toRat] <;> ring_nf

/-- C5 helper: `subtract a b` is the Python negation of `subtract b a`. -/
theorem subtract_antisymm (a b : PyNum) :
    subtract a b = (subtract b a).neg := by
  cases a <;> cases b <;> simp [subtract, PyNum.neg, PyNum.toRat] <;> ring_nf

/-- C5 helper: Python `multiply` is commutative on the nose. -/
theorem multiply_comm' (a b : PyNum) : multiply a b = multiply b a := by
  cases a <;> cases b <;> simp [multiply, PyNum.toRat] <;> ring_nf

/-- Helper: every route answers a failed validation with the response of the
validation exception handler. -/
theorem handle_of_validation_error (op : OpKind) (req : RawRequest)
    (errs : List (String × String)) (h : validateRequest req = .error errs) :
    handleRequest ⟨op, req⟩ = validationResponse errs := by
  cases op <;>
    simp [handleRequest, addRoute, subtractRoute, multiplyRoute, divideRoute, h]

/-- Helper: a field validation error is always tagged with that field's
name. -/
theorem validateField_error_name (name : String) (v : Option RawValue)
    (e : String × String) (h : validateField name v = .error e) : e.1 = name := by
  cases v with
  | none =>
      simp only [validateField] at h
      cases h
      rfl
  | some w =>
      cases w with
      | num p => simp [validateField, coerceFloat, validate_numbers] at h
      | numStr q => simp [validateField, coerceFloat, validate_numbers] at h
      | other s =>
          simp only [validateField, coerceFloat] at h
          cases h
          rfl

/-- Helper: a field that validates successfully yields a Python `float`
(Pydantic coerces to the annotated type). -/
theorem validateField_ok_isFloat (name : String) (v : Option RawValue)
    (p : PyNum) (h : validateField name v = .ok p) : p.isFloat = true := by
  cases v with
  | none => simp [validateField] at h
  | some w =>
      cases w with
      | num q =>
          simp only [validateField, coerceFloat, validate_numbers] at h
          cases h
          rfl
      | numStr q =>
          simp only [validateField, coerceFloat, validate_numbers] at h
          cases h
          rfl
      | other s => simp [validateField, coerceFloat] at h

/-- Helper: a successful whole-body validation means both fields validated
successfully to exactly the returned operands. -/
theorem validateRequest_ok_parts (req : RawRequest) (a b : PyNum)
    (h : validateRequest req = .ok (a, b)) :
    validateField "a" req.a = .ok a ∧ validateField "b" req.b = .ok b := by
  unfold validateRequest at h
  cases ha : validateField "a" req.a <;> cases hb : validateField "b" req.b <;>
    rw [ha, hb] at h <;> cases h <;> exact ⟨rfl, rfl⟩

/-- Helper: when field `a` fails validation the whole request fails
validation with a nonempty error list containing the error of `a` first. -/
theorem validateRequest_error_left (req : RawRequest) (e : String × String)
    (h : validateField "a" req.a = .error e) :
    ∃ errs, errs ≠ [] ∧ validateRequest req = .error errs := by
  cases hb : validateField "b" req.b with
  | ok y =>
      exact ⟨[e], by simp, by unfold validateRequest; rw [h, hb]⟩
  | error e₂ =>
      exact ⟨[e, e₂], by simp, by unfold validateRequest; rw [h, hb]⟩

/-- Helper: when field `b` fails validation the whole request fails
validation with a nonempty error list. -/
theorem validateRequest_error_right (req : RawRequest) (e : String × String)
    (h : validateField "b" req.b = .error e) :
    ∃ errs, errs ≠ [] ∧ validateRequest req = .error errs := by
  cases ha : validateField "a" req.a with
  | ok x =>
      exact ⟨[e], by simp, by unfold validateRequest; rw [ha, h]⟩
  | error e₁ =>
      exact ⟨[e₁, e], by simp, by unfold validateRequest; rw [ha, h]⟩

/-- C1: for every operand `a` and every divisor `b` that is numerically
zero (integer `0`, float `0.0` and `-0.0` alike, which all satisfy Python's
`b == 0`), `divide a b` fails with the verbatim message
"Cannot divide by zero!", and for every `b` that is not numerically zero
`divide a b` does not fail. -/
theorem divide_fails_iff_zero_divisor (a b : PyNum) :
    (b.toRat = 0 → divide a b = .error (.valueError "Cannot divide by zero!")) ∧
    (b.toRat ≠ 0 → isFailure (divide a b) = false) := by
  constructor
  · intro h
    simp [divide, h]
  · intro h
    simp [divide, h, isFailure]

/-- C1 witness: `divide` at the concrete zero divisors `0.0` and `0` fails
with the verbatim message, and at the nonzero divisor `3` does not fail. -/
theorem divide_fails_iff_zero_divisor_witness :
    divide (.int 5) (.float 0) = .error (.valueError "Cannot divide by zero!") ∧
    divide (.int 5) (.int 0) = .error (.valueError "Cannot divide by zero!") ∧
    isFailure (divide (.int 5) (.int 3)) = false :=
  ⟨(divide_fails_iff_zero_divisor (.int 5) (.float 0)).1 (by decide),
   (divide_fails_iff_zero_divisor (.int 5) (.int 0)).1 (by decide),
   (divide_fails_iff_zero_divisor (.int 5) (.int 3)).2 (by decide)⟩

/-- C2: for every pair of operands with nonzero divisor, `divide` returns
exactly the quotient of the operand values, and the returned value is of
Python type `float` even when both operands are evenly dividing integers. -/
theorem divide_returns_exact_float_quotient (a b : PyNum) (h : b.toRat ≠ 0) :
    divide a b = .ok (.float (a.toRat / b.toRat)) ∧
    ∀ v, divide a b = .ok v → v.isFloat = true := by
  have h₁ : divide a b = .ok (.float (a.toRat / b.toRat)) := by
    simp [divide, h]
  refine ⟨h₁, ?_⟩
  intro v hv
  rw [h₁] at hv
  cases hv
  rfl

/-- C2 witness: `divide 6 3` succeeds with the float quotient, which is
the float `2.0` and not the integer `2`. -/
theorem divide_returns_exact_float_quotient_witness :
    divide (.int 6) (.int 3) =
      .ok (.float ((PyNum.int 6).toRat / (PyNum.int 3).toRat)) ∧
    PyNum.isFloat (.float ((PyNum.int 6).toRat / (PyNum.int 3).toRat)) = true ∧
    divide (.int 6) (.int 3) = .ok (.float 2) := by
  have h := divide_returns_exact_float_quotient (.int 6) (.int 3) (by decide)
  exact ⟨h.1, h.2 _ h.1, by norm_num [divide, PyNum.toRat]⟩

/-- C3: `add`, `subtract` and `multiply` are total functions of the two
operands (they are plain Lean functions into `PyNum`, with no error
outcome), and their results carry exactly the sum, difference and product
of the operand values, with no rounding or clamping applied by the code. -/
theorem ops_total_and_exact (a b : PyNum) :
    (add a b).toRat = a.toRat + b.toRat ∧
    (subtract a b).toRat = a.toRat - b.toRat ∧
    (multiply a b).toRat = a.toRat * b.toRat := by
  refine ⟨?_, ?_, ?_⟩ <;> cases a <;> cases b <;>
    simp [add, subtract, multiply, PyNum.toRat] <;> push_cast <;> ring

/-- C5: the algebraic identities of the spec hold on the nose: `add` and
`multiply` are commutative, and `subtract a b` is the Python negation of
`subtract b a` (both the value and the `int`/`float` type agree, which is
stronger than Python's `==`). -/
theorem ops_algebraic_identities (a b : PyNum) :
    add a b = add b a ∧
    subtract a b = (subtract b a).neg ∧
    multiply a b = multiply b a :=
  ⟨add_comm' a b, subtract_antisymm a b, multiply_comm' a b⟩

/-- C4: for every request to any of the four endpoints, a validation
failure is answered with status 400 and the joined error message in the
body, a successful dispatch is answered with status 200 and a result in
the body (for `divide`, unless the divisor is numerically zero, which is
answered with status 400 and the verbatim division message), and the
divide route's fallback branch maps any non-`ValueError` exception to
status 500 with a generic body. -/
theorem route_status_mapping (r : Request) :
    (∀ errs, validateRequest r.body = .error errs →
        handleRequest r = .failure 400 (formatValidationErrors errs)) ∧
    (∀ a b, validateRequest r.body = .ok (a, b) →
        (∃ v, handleRequest r = .success v) ∨
        (r.op = .divideOp ∧ b.toRat = 0 ∧
          handleRequest r = .failure 400 "Cannot divide by zero!")) ∧
    (∀ msg, handleDivideOutcome (.error (.otherExc msg)) =
        .failure 500 "Internal Server Error") := by
  obtain ⟨op, body⟩ := r
  refine ⟨?_, ?_, fun msg => rfl⟩
  · intro errs h
    exact handle_of_validation_error op body errs h
  · intro a b h
    cases op with
    | addOp =>
        exact Or.inl ⟨OperationResponse (add a b), by simp [handleRequest, addRoute, h]⟩
    | subtractOp =>
        exact Or.inl ⟨OperationResponse (subtract a b),
          by simp [handleRequest, subtractRoute, h]⟩
    | multiplyOp =>
        exact Or.inl ⟨OperationResponse (multiply a b),
          by simp [handleRequest, multiplyRoute, h]⟩
    | divideOp =>
        by_cases hb : b.toRat = 0
        · exact Or.inr ⟨rfl, hb,
            by simp [handleRequest, divideRoute, h, divide, hb, handleDivideOutcome]⟩
        · exact Or.inl ⟨OperationResponse (.float (a.toRat / b.toRat)),
            by simp [handleRequest, divideRoute, h, divide, hb, handleDivideOutcome]⟩

/-- C4 witness: a request with a missing operand is answered with status
400 and the formatted validation message, and the divide route's fallback
branch answers status 500 with the generic body. -/
theorem route_status_mapping_witness :
    handleRequest ⟨.addOp, ⟨some (.num (.int 2)), none⟩⟩ =
      .failure 400 (formatValidationErrors [("b", "Field required")]) ∧
    handleDivideOutcome (.error (.otherExc "boom")) =
      .failure 500 "Internal Server Error" := by
  have h := route_status_mapping ⟨.addOp, ⟨some (.num (.int 2)), none⟩⟩
  exact ⟨h.1 [("b", "Field required")] (by decide), h.2.2 "boom"⟩

/-- C6: a request with a missing or non-numeric operand fails Pydantic
validation with a nonempty error list, and every endpoint answers it with
the validation handler's response — which is built from the validation
errors alone, so no operation function is invoked and no operation-level
failure can result. -/
theorem malformed_rejected_before_dispatch (req : RawRequest)
    (h : req.a = none ∨ (∃ s, req.a = some (.other s)) ∨
         req.b = none ∨ (∃ s, req.b = some (.other s))) :
    ∃ errs, errs ≠ [] ∧ validateRequest req = .error errs ∧
      ∀ op : OpKind, handleRequest ⟨op, req⟩ = validationResponse errs := by
  have hv : ∃ errs, errs ≠ [] ∧ validateRequest req = .error errs := by
    rcases h with h | ⟨s, h⟩ | h | ⟨s, h⟩
    · exact validateRequest_error_left req ("a", "Field required") (by rw [h]; rfl)
    · exact validateRequest_error_left req
        ("a", "Input should be a valid number, unable to parse string as a number")
        (by rw [h]; rfl)
    · exact validateRequest_error_right req ("b", "Field required") (by rw [h]; rfl)
    · exact validateRequest_error_right req
        ("b", "Input should be a valid number, unable to parse string as a number")
        (by rw [h]; rfl)
  obtain ⟨errs, hne, herrs⟩ := hv
  exact ⟨errs, hne, herrs, fun op => handle_of_validation_error op req errs herrs⟩

/-- C6 witness: the spec's concrete scenario, a request with the
non-numeric operand "x", is rejected by validation and answered by the
validation handler on the add endpoint. -/
theorem malformed_rejected_before_dispatch_witness :
    validateRequest ⟨some (.other "x"), some (.num (.int 5))⟩ =
      .error [("a", "Input should be a valid number, unable to parse string as a number")] ∧
    handleRequest ⟨.addOp, ⟨some (.other "x"), some (.num (.int 5))⟩⟩ =
      validationResponse
        [("a", "Input should be a valid number, unable to parse string as a number")] := by
  obtain ⟨errs, hne, hval, hall⟩ :=
    malformed_rejected_before_dispatch ⟨some (.other "x"), some (.num (.int 5))⟩
      (Or.inr (Or.inl ⟨"x", rfl⟩))
  have he : errs =
      [("a", "Input should be a valid number, unable to parse string as a number")] := by
    have h₂ : (Except.error errs : Except (List (String × String)) (PyNum × PyNum)) =
        .error [("a", "Input should be a valid number, unable to parse string as a number")] :=
      hval.symm.trans (by decide)
    simpa using h₂
  subst he
  exact ⟨hval, hall .addOp⟩

/-- C7: every validation failure is answered with the semicolon-joined
list of field-colon-problem pairs, and when both operands fail validation
both errors appear in the single message, the one for field a (tagged
"a") first and the one for field b (tagged "b") second. -/
theorem validation_error_message_format (req : RawRequest) :
    (∀ errs, validateRequest req = .error errs →
        ∀ op : OpKind, handleRequest ⟨op, req⟩ =
          .failure 400 (String.intercalate "; "
            (errs.map (fun e => e.1 ++ ": " ++ e.2)))) ∧
    (∀ ea eb, validateField "a" req.a = .error ea →
        validateField "b" req.b = .error eb →
        validateRequest req = .error [ea, eb] ∧ ea.1 = "a" ∧ eb.1 = "b" ∧
        ∀ op : OpKind, handleRequest ⟨op, req⟩ =
          .failure 400 (ea.1 ++ ": " ++ ea.2 ++ "; " ++ (eb.1 ++ ": " ++ eb.2))) := by
  constructor
  · intro errs h op
    exact handle_of_validation_error op req errs h
  · intro ea eb ha hb
    have herr : validateRequest req = .error [ea, eb] := by
      unfold validateRequest
      rw [ha, hb]
    refine ⟨herr, validateField_error_name _ _ _ ha,
      validateField_error_name _ _ _ hb, fun op => ?_⟩
    rw [handle_of_validation_error op req [ea, eb] herr]
    rfl

/-- C7 witness: a request in which both operands fail validation (one
missing, one non-numeric) is answered with the single semicolon-joined
message naming both fields. -/
theorem validation_error_message_format_witness :
    handleRequest ⟨.addOp, ⟨none, some (.other "y")⟩⟩ =
      .failure 400
        ("a" ++ ": " ++ "Field required" ++ "; " ++
          ("b" ++ ": " ++
            "Input should be a valid number, unable to parse string as a number")) :=
  ((validation_error_message_format ⟨none, some (.other "y")⟩).2
    ("a", "Field required")
    ("b", "Input should be a valid number, unable to parse string as a number")
    rfl rfl).2.2.2 .addOp

/-- C8: every successful response carries a value of Python type `float`,
on every endpoint and for every request, even when the request supplied
integral operands. -/
theorem success_result_is_float (r : Request) (v : PyNum)
    (h : handleRequest r = .success v) : v.isFloat = true := by
  obtain ⟨op, body⟩ := r
  cases hval : validateRequest body with
  | error errs =>
      rw [handle_of_validation_error op body errs hval] at h
      simp [validationResponse] at h
  | ok p =>
      obtain ⟨a, b⟩ := p
      cases op with
      | addOp =>
          simp only [handleRequest, addRoute, hval] at h
          cases h
          rfl
      | subtractOp =>
          simp only [handleRequest, subtractRoute, hval] at h
          cases h
          rfl
      | multiplyOp =>
          simp only [handleRequest, multiplyRoute, hval] at h
          cases h
          rfl
      | divideOp =>
          simp only [handleRequest, divideRoute, hval] at h
          by_cases hb : b.toRat = 0
          · simp [divide, hb, handleDivideOutcome] at h
          · simp only [divide, hb, if_neg hb, handleDivideOutcome] at h
            cases h
            rfl

/-- C8 witness: the request adding the integers 2 and 3 through the
service layer is answered with the float 5.0. -/
theorem success_result_is_float_witness :
    PyNum.isFloat (.float 5) = true ∧
    handleRequest ⟨.addOp, ⟨some (.num (.int 2)), some (.num (.int 3))⟩⟩ =
      .success (.float 5) := by
  have hcomp : handleRequest ⟨.addOp, ⟨some (.num (.int 2)), some (.num (.int 3))⟩⟩ =
      .success (.float 5) := by
    norm_num [handleRequest, addRoute, validateRequest, validateField, coerceFloat,
      validate_numbers, OperationResponse, add, PyNum.toRat]
  exact ⟨success_result_is_float _ _ hcomp, hcomp⟩

/-- C9: the service keeps no state between requests: the response to a
request is `handleRequest` of that request alone, whatever requests come
before or after it — so two invocations of the same operation with equal
operand pairs always produce identical outcomes. -/
theorem requests_independent (ctx₁ ctx₂ : List Request) (r : Request) :
    (runServer (ctx₁ ++ [r])).getLast? = some (handleRequest r) ∧
    (runServer (ctx₂ ++ [r])).getLast? = some (handleRequest r) ∧
    (runServer (ctx₁ ++ r :: ctx₂))[ctx₁.length]? = some (handleRequest r) := by
  refine ⟨?_, ?_, ?_⟩
  · simp [runServer, List.getLast?_concat]
  · simp [runServer, List.getLast?_concat]
  · induction ctx₁ with
    | nil => simp [runServer]
    | cons x xs ih => simpa [runServer] using ih

/-- C10: every validated request hands the operation layer two operands of
Python type `float` (the request model's field annotations coerce them),
while the bare `add` function applied to two Python integers returns a
Python integer. -/
theorem operands_coerced_to_float (req : RawRequest) (a b : PyNum)
    (h : validateRequest req = .ok (a, b)) :
    a.isFloat = true ∧ b.isFloat = true ∧
    ∀ m n : ℤ, add (.int m) (.int n) = .int (m + n) := by
  obtain ⟨ha, hb⟩ := validateRequest_ok_parts req a b h
  exact ⟨validateField_ok_isFloat _ _ _ ha, validateField_ok_isFloat _ _ _ hb,
    fun m n => rfl⟩

/-- C10 witness: the request body with integer operands 2 and 3 validates
to the float operands 2.0 and 3.0, while the bare `add` on the integers 2
and 3 returns the integer 5. -/
theorem operands_coerced_to_float_witness :
    PyNum.isFloat (.float 2) = true ∧ PyNum.isFloat (.float 3) = true ∧
    add (.int 2) (.int 3) = .int (2 + 3) := by
  have h := operands_coerced_to_float ⟨some (.num (.int 2)), some (.num (.int 3))⟩
      (.float 2) (.float 3) (by decide)
  exact ⟨h.1, h.2.1, h.2.2 2 3⟩

end Calc
